import Mathlib

/-!
Verification development for `download-worker.py`, a WordPress-plugin
bulk downloader.  The Python program is shallowly embedded:

* `PluginRecord` models one deserialized element of a paginated listing
  response (a Python dict with a `slug` key and an optional
  `active_installs` key).
* `fetch_plugins` models the pagination loop (the Paginator), with the
  remote listing endpoint abstracted as a function from page number to
  reply and an explicit fuel argument bounding the number of loop
  iterations (the Python `while True` loop has no bound of its own).
* `filter_plugins` models the install-count range filter.
* `download_plugin` models the single-item Fetcher, with the network
  abstracted as a function from slug to reply and the filesystem as an
  association list from path to file content (a list of chunks).
* `run_all` models the Dispatcher's application of the Fetcher to every
  slug (`executor.map(download_plugin, slugs)` yields one result per
  slug, in input order).
-/

/-- One plugin entry from the listing API.  `active_installs = none`
models a payload in which the key is absent; `p.get("active_installs", 0)`
is then `installs`. -/
structure PluginRecord where
  slug : String
  active_installs : Option Int
deriving DecidableEq, Repr

/-- Python's `p.get("active_installs", 0)`. -/
def PluginRecord.installs (p : PluginRecord) : Int :=
  p.active_installs.getD 0

/-- `filter_plugins(plugins, min_installs, max_installs)`:
`[p for p in plugins if min_installs <= p.get("active_installs", 0) <= max_installs]`. -/
def filter_plugins (plugins : List PluginRecord) (min_installs max_installs : Int) :
    List PluginRecord :=
  plugins.filter (fun p => min_installs ≤ p.installs ∧ p.installs ≤ max_installs)

/-- The spec's membership predicate for the Filter, written from the
spec's words: `min <= record.active_installs <= max` with
`active_installs` taken as 0 when absent. -/
def inRange (p : PluginRecord) (mn mx : Int) : Prop :=
  mn ≤ p.installs ∧ p.installs ≤ mx

instance (p : PluginRecord) (mn mx : Int) : Decidable (inRange p mn mx) := by
  unfold inRange; infer_instance

/-- C4: the Filter returns exactly the in-range records (membership and
multiplicity), preserves relative order (sublist), and an inverted range
yields the empty list. -/
theorem filter_plugins_spec (l : List PluginRecord) (mn mx : Int) :
    (filter_plugins l mn mx).Sublist l ∧
    (∀ p, p ∈ filter_plugins l mn mx ↔ p ∈ l ∧ inRange p mn mx) ∧
    (∀ p, (filter_plugins l mn mx).count p =
      if inRange p mn mx then l.count p else 0) ∧
    (mn > mx → filter_plugins l mn mx = []) := by
  refine ⟨List.filter_sublist l, fun p => ?_, fun p => ?_, fun h => ?_⟩
  · simp [filter_plugins, List.mem_filter, inRange]
  · by_cases hp : inRange p mn mx
    · simp only [hp, if_true]
      exact List.count_filter (by simpa [inRange] using hp)
    · simp only [hp, if_false]
      refine List.count_eq_zero.2 (fun hmem => hp ?_)
      have := (List.mem_filter.1 hmem).2
      simpa [inRange] using this
  · apply List.filter_eq_nil_iff.2
    intro p _
    simp only [decide_eq_true_eq, not_and]
    intro h1 h2
    exact absurd (le_trans h1 h2) (not_le.2 h)

/-- Witness for C4 at a concrete list and inverted range. -/
theorem filter_plugins_spec_witness :
    (5 : Int) > 2 ∧
      filter_plugins [⟨"a", some 3⟩, ⟨"b", none⟩] 5 2 = [] :=
  ⟨by decide, (filter_plugins_spec [⟨"a", some 3⟩, ⟨"b", none⟩] 5 2).2.2.2 (by decide)⟩

/-! ## Paginator (`fetch_plugins`, lines 13–40) -/

/-- Reply of one listing-endpoint request.  `transportError` models
`requests.get` raising (timeout, connection error, DNS failure);
`response` carries `resp.status_code` and the parsed
`data.get("plugins", [])` list. -/
inductive ListingReply where
  | transportError (msg : String)
  | response (status : Nat) (plugins : List PluginRecord)
deriving DecidableEq, Repr

/-- Result of running the pagination loop.  `returned` is a normal
return of `fetch_plugins` together with the number of page requests
issued; `raised` is an exception escaping `fetch_plugins` (the loop body
has no `try`, so a raising `requests.get` propagates and terminates the
process); `fuelOut` means the modelling fuel ran out before the loop
finished. -/
inductive PaginationResult where
  | returned (plugins : List PluginRecord) (requests : Nat)
  | raised (msg : String) (requests : Nat)
  | fuelOut
deriving DecidableEq, Repr

/-- The `while True` loop of `fetch_plugins`, one fuel per iteration.
`page` is the next page number, `acc` is `all_plugins`, `reqs` counts
page requests made so far. -/
def fetch_plugins_go (endpoint : Nat → ListingReply) :
    Nat → Nat → List PluginRecord → Nat → PaginationResult
  | 0, _, _, _ => .fuelOut
  | fuel + 1, page, acc, reqs =>
    match endpoint page with
    | .transportError msg => .raised msg (reqs + 1)
    | .response status plugins =>
      if status ≠ 200 then .returned acc (reqs + 1)
      else if plugins.isEmpty then .returned acc (reqs + 1)
      else fetch_plugins_go endpoint fuel (page + 1) (acc ++ plugins) (reqs + 1)

/-- `fetch_plugins()`: start at page 1 with an empty accumulator. -/
def fetch_plugins (endpoint : Nat → ListingReply) (fuel : Nat) : PaginationResult :=
  fetch_plugins_go endpoint fuel 1 [] 0

/-- Stepping lemma: across a run of consecutive pages that all answer
status 200 with a non-empty item list, the loop consumes one fuel per
page, appends the pages' items in order and counts one request per
page. -/
theorem fetch_plugins_go_full_run (endpoint : Nat → ListingReply) :
    ∀ (pages : List (List PluginRecord)) (start : Nat),
      (∀ i, (h : i < pages.length) →
          endpoint (start + i) = .response 200 (pages.get ⟨i, h⟩) ∧
          pages.get ⟨i, h⟩ ≠ []) →
      ∀ fuel acc reqs,
        fetch_plugins_go endpoint (fuel + pages.length) start acc reqs =
          fetch_plugins_go endpoint fuel (start + pages.length)
            (acc ++ pages.flatten) (reqs + pages.length) := by
  intro pages
  induction pages with
  | nil => intro start _ fuel acc reqs; simp
  | cons p ps ih =>
    intro start hp fuel acc reqs
    have h0 := hp 0 (by simp)
    have hne : p.isEmpty = false := by
      simpa [List.isEmpty_iff] using h0.2
    have hstep :
        fetch_plugins_go endpoint (fuel + (p :: ps).length) start acc reqs =
          fetch_plugins_go endpoint (fuel + ps.length) (start + 1) (acc ++ p) (reqs + 1) := by
      have : fuel + (p :: ps).length = (fuel + ps.length) + 1 := by
        simp [List.length_cons]; omega
      rw [this]
      simp only [fetch_plugins_go]
      rw [show endpoint start = .response 200 p by simpa using h0.1]
      simp [hne]
    rw [hstep]
    have hps : ∀ i, (h : i < ps.length) →
        endpoint (start + 1 + i) = .response 200 (ps.get ⟨i, h⟩) ∧
        ps.get ⟨i, h⟩ ≠ [] := by
      intro i h
      have := hp (i + 1) (by simpa using Nat.succ_lt_succ h)
      simpa [Nat.add_assoc, Nat.add_comm 1 i] using this
    rw [ih (start + 1) hps fuel (acc ++ p) (reqs + 1)]
    simp [List.flatten, List.length_cons, Nat.add_assoc, Nat.add_comm 1]

/-- C3: given N pages answering status 200 with non-empty item lists and
page N+1 answering status 200 with an empty list, `fetch_plugins`
returns exactly the concatenation of the N pages' items in page order
and makes exactly N+1 page requests (given enough loop fuel). -/
theorem fetch_plugins_pagination_termination (endpoint : Nat → ListingReply)
    (pages : List (List PluginRecord))
    (hpages : ∀ i, (h : i < pages.length) →
        endpoint (1 + i) = .response 200 (pages.get ⟨i, h⟩) ∧
        pages.get ⟨i, h⟩ ≠ [])
    (hlast : endpoint (1 + pages.length) = .response 200 [])
    (fuel : Nat) (hfuel : pages.length + 1 ≤ fuel) :
    fetch_plugins endpoint fuel = .returned pages.flatten (pages.length + 1) := by
  obtain ⟨k, hk⟩ : ∃ k, fuel = (k + 1) + pages.length := by
    refine ⟨fuel - pages.length - 1, ?_⟩; omega
  subst hk
  unfold fetch_plugins
  rw [fetch_plugins_go_full_run endpoint pages 1 hpages (k + 1) [] 0]
  simp only [fetch_plugins_go, hlast]
  simp

/-- Witness for C3: two non-empty pages then an empty page. -/
theorem fetch_plugins_pagination_termination_witness :
    fetch_plugins
      (fun page => if page = 1 then .response 200 [⟨"a", some 1⟩]
        else if page = 2 then .response 200 [⟨"b", none⟩, ⟨"c", some 7⟩]
        else .response 200 [])
      5 = .returned [⟨"a", some 1⟩, ⟨"b", none⟩, ⟨"c", some 7⟩] 3 := by
  have := fetch_plugins_pagination_termination
    (fun page => if page = 1 then .response 200 [⟨"a", some 1⟩]
      else if page = 2 then .response 200 [⟨"b", none⟩, ⟨"c", some 7⟩]
      else .response 200 [])
    [[⟨"a", some 1⟩], [⟨"b", none⟩, ⟨"c", some 7⟩]]
    (by decide) (by decide) 5 (by decide)
  simpa using this

/-- C8: when a page answers a non-success HTTP status after N good
pages, the loop stops with exactly N+1 requests issued (the failed page
is requested once and never retried) and returns the N good pages'
accumulated records. -/
theorem fetch_plugins_status_error_preserves (endpoint : Nat → ListingReply)
    (pages : List (List PluginRecord)) (status : Nat) (items : List PluginRecord)
    (hpages : ∀ i, (h : i < pages.length) →
        endpoint (1 + i) = .response 200 (pages.get ⟨i, h⟩) ∧
        pages.get ⟨i, h⟩ ≠ [])
    (hlast : endpoint (1 + pages.length) = .response status items)
    (hstatus : status ≠ 200)
    (fuel : Nat) (hfuel : pages.length + 1 ≤ fuel) :
    fetch_plugins endpoint fuel = .returned pages.flatten (pages.length + 1) := by
  obtain ⟨k, hk⟩ : ∃ k, fuel = (k + 1) + pages.length := by
    refine ⟨fuel - pages.length - 1, ?_⟩; omega
  subst hk
  unfold fetch_plugins
  rw [fetch_plugins_go_full_run endpoint pages 1 hpages (k + 1) [] 0]
  simp only [fetch_plugins_go, hlast]
  simp [hstatus]

/-- Witness for C8: one good page, then an HTTP 500 page. -/
theorem fetch_plugins_status_error_preserves_witness :
    fetch_plugins
      (fun page => if page = 1 then .response 200 [⟨"a", some 1⟩]
        else .response 500 [])
      4 = .returned [⟨"a", some 1⟩] 2 := by
  have := fetch_plugins_status_error_preserves
    (fun page => if page = 1 then .response 200 [⟨"a", some 1⟩]
      else .response 500 [])
    [[⟨"a", some 1⟩]] 500 [] (by decide) (by decide) (by decide) 4 (by decide)
  simpa using this

/-- Counterexample for C2: a transport-level failure on page 2 does not
preserve and return the page-1 records; instead the exception escapes
`fetch_plugins` (modelled as `raised`), which is not a normal return. -/
theorem fetch_plugins_transport_counterexample :
    fetch_plugins
      (fun page => if page = 1 then .response 200 [⟨"a", some 1⟩]
        else .transportError "connection timed out")
      10 = .raised "connection timed out" 2 ∧
    (PaginationResult.raised "connection timed out" 2 ≠
      .returned [⟨"a", some 1⟩] 2) := by
  constructor
  · decide
  · decide

/-- C2 (amended): a transport-level failure during pagination is not
caught — the exception propagates out of `fetch_plugins`, the records
accumulated from earlier pages are discarded rather than returned, and
the failure is fatal to the process. -/
theorem fetch_plugins_transport_raises (endpoint : Nat → ListingReply)
    (pages : List (List PluginRecord)) (msg : String)
    (hpages : ∀ i, (h : i < pages.length) →
        endpoint (1 + i) = .response 200 (pages.get ⟨i, h⟩) ∧
        pages.get ⟨i, h⟩ ≠ [])
    (hlast : endpoint (1 + pages.length) = .transportError msg)
    (fuel : Nat) (hfuel : pages.length + 1 ≤ fuel) :
    fetch_plugins endpoint fuel = .raised msg (pages.length + 1) := by
  obtain ⟨k, hk⟩ : ∃ k, fuel = (k + 1) + pages.length := by
    refine ⟨fuel - pages.length - 1, ?_⟩; omega
  subst hk
  unfold fetch_plugins
  rw [fetch_plugins_go_full_run endpoint pages 1 hpages (k + 1) [] 0]
  simp only [fetch_plugins_go, hlast]
  simp

/-- Witness for the amended C2: one good page, then a DNS failure. -/
theorem fetch_plugins_transport_raises_witness :
    fetch_plugins
      (fun page => if page = 1 then .response 200 [⟨"a", some 1⟩]
        else .transportError "DNS lookup failed")
      7 = .raised "DNS lookup failed" 2 := by
  have := fetch_plugins_transport_raises
    (fun page => if page = 1 then .response 200 [⟨"a", some 1⟩]
      else .transportError "DNS lookup failed")
    [[⟨"a", some 1⟩]] "DNS lookup failed" (by decide) (by decide) 7 (by decide)
  simpa using this

/-! ## Fetcher (`download_plugin`, lines 51–69) -/

/-- Module-level constant `OUTPUT_DIR = "plugins"`. -/
def OUTPUT_DIR : String := "plugins"

/-- `os.path.join(OUTPUT_DIR, f"{slug}.zip")`. -/
def dest_path (slug : String) : String :=
  OUTPUT_DIR ++ "/" ++ slug ++ ".zip"

/-- A file's content: the sequence of chunks written to it. -/
abbrev FileData := List Nat

/-- The output directory as an association list from path to content;
a later entry for the same path shadows an earlier one. -/
abbrev Fs := List (String × FileData)

/-- `os.path.exists(p)`. -/
def Fs.existsPath (fs : Fs) (p : String) : Bool :=
  fs.any (fun e => e.1 = p)

/-- `open(p, "wb")` followed by writing `d` and closing. -/
def Fs.write (fs : Fs) (p : String) (d : FileData) : Fs :=
  (p, d) :: fs

/-- Content at a path, newest write first. -/
def Fs.read (fs : Fs) (p : String) : Option FileData :=
  (fs.find? (fun e => e.1 = p)).map Prod.snd

/-- Body of a streamed 200 response: the chunks `iter_content` delivers
successfully, and, when `interrupted = some msg`, an exception raised by
the stream after those chunks were delivered and written. -/
structure StreamBody where
  chunks : FileData
  interrupted : Option String
deriving DecidableEq, Repr

/-- Reply of one download request.  `transportError` models
`requests.get` itself raising (timeout, connection error, DNS
failure). -/
inductive DownloadReply where
  | transportError (msg : String)
  | response (status : Nat) (body : StreamBody)
deriving DecidableEq, Repr

/-- The tagged outcome a `download_plugin` call reports (the code
renders these as the `[SKIP]`, `[OK]`, `[FAIL] (HTTP n)` and
`[ERROR] : msg` result strings). -/
inductive DownloadOutcome where
  | Skipped
  | Succeeded
  | FailedHTTP (status : Nat)
  | FailedTransport (msg : String)
deriving DecidableEq, Repr

/-- One Fetcher call: its reported outcome, the filesystem afterwards,
and how many network requests it issued. -/
structure FetchResult where
  outcome : DownloadOutcome
  fs : Fs
  requests : Nat
deriving DecidableEq, Repr

/-- `download_plugin(slug)`.  The existence check precedes any network
access; everything network-related sits inside `try ... except
Exception`.  On a 200 the chunks delivered before a mid-stream
exception have already been written, and the `with` block closes the
file, so an interrupted stream leaves a truncated file at the
destination while the call reports a transport failure. -/
def download_plugin (net : String → DownloadReply) (fs : Fs) (slug : String) :
    FetchResult :=
  let path := dest_path slug
  if fs.existsPath path then ⟨.Skipped, fs, 0⟩
  else
    match net slug with
    | .transportError msg => ⟨.FailedTransport msg, fs, 1⟩
    | .response status body =>
      if status = 200 then
        match body.interrupted with
        | none => ⟨.Succeeded, fs.write path body.chunks, 1⟩
        | some msg => ⟨.FailedTransport msg, fs.write path body.chunks, 1⟩
      else ⟨.FailedHTTP status, fs, 1⟩

/-- An existing destination short-circuits the Fetcher: `Skipped`,
no filesystem change, no network request. -/
theorem download_plugin_skip (net : String → DownloadReply) (fs : Fs) (slug : String)
    (hex : fs.existsPath (dest_path slug) = true) :
    download_plugin net fs slug = ⟨.Skipped, fs, 0⟩ := by
  simp [download_plugin, hex]

/-- C1: the Fetcher is total over failure modes — every call reports one
of the four `DownloadOutcome` tags, and both kinds of transport-level
failure (the request raising, and the stream raising mid-body) are
converted into `FailedTransport` values instead of propagating. -/
theorem download_plugin_total (net : String → DownloadReply) (fs : Fs) (slug : String) :
    ((download_plugin net fs slug).outcome = .Skipped ∨
     (download_plugin net fs slug).outcome = .Succeeded ∨
     (∃ s, (download_plugin net fs slug).outcome = .FailedHTTP s) ∨
     (∃ m, (download_plugin net fs slug).outcome = .FailedTransport m)) ∧
    (∀ msg, fs.existsPath (dest_path slug) = false →
      net slug = .transportError msg →
      (download_plugin net fs slug).outcome = .FailedTransport msg) ∧
    (∀ body msg, fs.existsPath (dest_path slug) = false →
      net slug = .response 200 body → body.interrupted = some msg →
      (download_plugin net fs slug).outcome = .FailedTransport msg) := by
  refine ⟨?_, fun msg hne hnet => ?_, fun body msg hne hnet hint => ?_⟩
  · unfold download_plugin
    by_cases hex : fs.existsPath (dest_path slug)
    · simp [hex]
    · simp only [hex, Bool.false_eq_true, if_false]
      cases hnet : net slug with
      | transportError m => exact Or.inr (Or.inr (Or.inr ⟨m, rfl⟩))
      | response status body =>
        by_cases hst : status = 200
        · cases hint : body.interrupted with
          | none => simp [hst, hint]
          | some m => exact Or.inr (Or.inr (Or.inr ⟨m, by simp [hst, hint]⟩))
        · exact Or.inr (Or.inr (Or.inl ⟨status, by simp [hst]⟩))
  · simp [download_plugin, hne, hnet]
  · simp [download_plugin, hne, hnet, hint]

/-- Witness for C1: a DNS failure on an absent destination reports
`FailedTransport`. -/
theorem download_plugin_total_witness :
    (download_plugin (fun _ => .transportError "DNS lookup failed") [] "alpha").outcome =
      .FailedTransport "DNS lookup failed" :=
  (download_plugin_total (fun _ => .transportError "DNS lookup failed") [] "alpha").2.1
    "DNS lookup failed" (by decide) rfl

/-- C5: when the destination already exists the Fetcher returns
`Skipped` with zero network requests and an unchanged filesystem; hence
after any call that leaves the destination present, every subsequent
call returns `Skipped`, touches the network zero times, and leaves the
file unchanged. -/
theorem download_plugin_idempotent (net net' : String → DownloadReply)
    (fs : Fs) (slug : String) :
    (fs.existsPath (dest_path slug) = true →
      download_plugin net fs slug = ⟨.Skipped, fs, 0⟩) ∧
    ((download_plugin net fs slug).fs.existsPath (dest_path slug) = true →
      download_plugin net' (download_plugin net fs slug).fs slug =
        ⟨.Skipped, (download_plugin net fs slug).fs, 0⟩) := by
  constructor
  · intro hex
    exact download_plugin_skip net fs slug hex
  · intro hex
    exact download_plugin_skip net' (download_plugin net fs slug).fs slug hex

/-- Witness for C5: a successful download followed by a second call
that skips with no network request. -/
theorem download_plugin_idempotent_witness :
    download_plugin (fun _ => .transportError "no second request")
      (download_plugin (fun _ => .response 200 ⟨[1, 2], none⟩) [] "alpha").fs "alpha" =
      ⟨.Skipped, (download_plugin (fun _ => .response 200 ⟨[1, 2], none⟩) [] "alpha").fs, 0⟩ :=
  (download_plugin_idempotent (fun _ => .response 200 ⟨[1, 2], none⟩)
    (fun _ => .transportError "no second request") [] "alpha").2 (by decide)

/-- C6: a non-success HTTP status yields `FailedHTTP(status)` with the
filesystem unchanged — no file is created or left partially written at
the destination. -/
theorem download_plugin_http_failure (net : String → DownloadReply) (fs : Fs)
    (slug : String) (status : Nat) (body : StreamBody)
    (hne : fs.existsPath (dest_path slug) = false)
    (hnet : net slug = .response status body)
    (hstatus : status ≠ 200) :
    download_plugin net fs slug = ⟨.FailedHTTP status, fs, 1⟩ := by
  simp [download_plugin, hne, hnet, hstatus]

/-- Witness for C6: an HTTP 404 on an empty filesystem. -/
theorem download_plugin_http_failure_witness :
    download_plugin (fun _ => .response 404 ⟨[9], none⟩) [] "alpha" =
      ⟨.FailedHTTP 404, [], 1⟩ :=
  download_plugin_http_failure (fun _ => .response 404 ⟨[9], none⟩) [] "alpha"
    404 ⟨[9], none⟩ (by decide) rfl (by decide)

/-- C9: atomicity fails for mid-stream transport failures — a 200
response whose stream raises after one chunk leaves a truncated file at
the destination while reporting `FailedTransport`, and the next call
(under any network, here one that would fail) skips the truncated file
with zero network requests. -/
theorem download_plugin_truncation :
    download_plugin (fun _ => .response 200 ⟨[7], some "connection reset"⟩) [] "alpha" =
      ⟨.FailedTransport "connection reset", [(dest_path "alpha", [7])], 1⟩ ∧
    Fs.read [(dest_path "alpha", [7])] (dest_path "alpha") = some [7] ∧
    download_plugin (fun _ => .transportError "unused")
      [(dest_path "alpha", [7])] "alpha" =
      ⟨.Skipped, [(dest_path "alpha", [7])], 0⟩ := by
  refine ⟨by decide, by decide, by decide⟩

/-! ## Dispatcher (`main`, lines 95–96) -/

/-- `list(executor.map(download_plugin, slugs))`: one Fetcher call per
slug, results in input order.  The pool interleaves calls, but each call
reads and writes only its own slug-derived path, so the thread-pool run
is modelled by serializing the calls and threading the filesystem. -/
def run_all (net : String → DownloadReply) (fs : Fs) :
    List String → List DownloadOutcome × Fs
  | [] => ([], fs)
  | s :: rest =>
    let r := download_plugin net fs s
    let rest_result := run_all net r.fs rest
    (r.outcome :: rest_result.1, rest_result.2)

/-- Distinct slugs derive distinct destination paths. -/
theorem dest_path_injective : Function.Injective dest_path := by
  intro s t h
  have hd := congrArg String.data h
  simp only [dest_path, OUTPUT_DIR, String.data_append, List.append_assoc] at hd
  have h1 := List.append_cancel_left hd
  have h2 := List.append_cancel_left h1
  have h3 := List.append_cancel_right h2
  exact String.ext h3

/-- A Fetcher call changes file existence at no path other than its own
destination. -/
theorem download_plugin_preserves (net : String → DownloadReply) (fs : Fs)
    (slug : String) (p : String) (hp : p ≠ dest_path slug) :
    Fs.existsPath (download_plugin net fs slug).fs p = Fs.existsPath fs p := by
  have hp' : (decide (dest_path slug = p)) = false := by
    simp [Ne.symm hp]
  unfold download_plugin
  by_cases hex : fs.existsPath (dest_path slug)
  · simp [hex]
  · simp only [hex, Bool.false_eq_true, if_false]
    cases net slug with
    | transportError msg => rfl
    | response status body =>
      by_cases hst : status = 200
      · cases hint : body.interrupted with
        | none => simp [hst, hint, Fs.write, Fs.existsPath, hp']
        | some m => simp [hst, hint, Fs.write, Fs.existsPath, hp']
      · simp [hst]

/-- The reported outcome depends on the filesystem only through the
existence of the call's own destination path. -/
theorem download_plugin_outcome_congr (net : String → DownloadReply)
    (fs1 fs2 : Fs) (slug : String)
    (h : Fs.existsPath fs1 (dest_path slug) = Fs.existsPath fs2 (dest_path slug)) :
    (download_plugin net fs1 slug).outcome = (download_plugin net fs2 slug).outcome := by
  simp only [download_plugin]
  rw [h]
  by_cases hex : fs2.existsPath (dest_path slug)
  · simp [hex]
  · simp only [hex, Bool.false_eq_true, if_false]
    cases net slug with
    | transportError msg => rfl
    | response status body =>
      by_cases hst : status = 200
      · cases hint : body.interrupted with
        | none => simp [hst, hint]
        | some m => simp [hst, hint]
      · simp [hst]

/-- A Fetcher call depends on the network only through its own slug's
reply. -/
theorem download_plugin_net_congr (net net' : String → DownloadReply)
    (fs : Fs) (slug : String) (h : net' slug = net slug) :
    download_plugin net' fs slug = download_plugin net fs slug := by
  unfold download_plugin
  rw [h]

/-- Over pairwise-distinct slugs, the Dispatcher's outcome list is the
per-slug Fetcher outcome against the initial filesystem — each entry is
a function of that slug's own reply and initial file existence alone. -/
theorem run_all_outcomes (net : String → DownloadReply) (fs : Fs) :
    ∀ (slugs : List String) (fs' : Fs), slugs.Nodup →
      (∀ s ∈ slugs, Fs.existsPath fs' (dest_path s) = Fs.existsPath fs (dest_path s)) →
      (run_all net fs' slugs).1 = slugs.map (fun s => (download_plugin net fs s).outcome) := by
  intro slugs
  induction slugs with
  | nil => intro fs' _ _; rfl
  | cons s rest ih =>
    intro fs' hnd hpaths
    have hhead : (download_plugin net fs' s).outcome = (download_plugin net fs s).outcome :=
      download_plugin_outcome_congr net fs' fs s (hpaths s (List.mem_cons_self s rest))
    have hrest : ∀ t ∈ rest,
        Fs.existsPath (download_plugin net fs' s).fs (dest_path t) =
          Fs.existsPath fs (dest_path t) := by
      intro t ht
      have hts : t ≠ s := fun hts => (List.nodup_cons.1 hnd).1 (hts ▸ ht)
      have hpath : dest_path t ≠ dest_path s := fun hp => hts (dest_path_injective hp)
      rw [download_plugin_preserves net fs' s (dest_path t) hpath]
      exact hpaths t (List.mem_cons_of_mem s ht)
    simp only [run_all, List.map_cons]
    rw [hhead, ih (download_plugin net fs' s).fs (List.nodup_cons.1 hnd).2 hrest]

/-- C7: the Dispatcher returns exactly one outcome per input slug (same
length for every input); over distinct slugs each outcome is the
Fetcher's answer for that slug against the initial filesystem, so
changing one slug's reply (e.g. making it an HTTP failure) leaves every
other slug's outcome unchanged. -/
theorem run_all_one_outcome_per_slug (net net' : String → DownloadReply)
    (fs : Fs) (slugs : List String) :
    (run_all net fs slugs).1.length = slugs.length ∧
    (slugs.Nodup →
      (run_all net fs slugs).1 = slugs.map (fun s => (download_plugin net fs s).outcome)) ∧
    (slugs.Nodup → ∀ i, (hi : i < slugs.length) →
      net' (slugs.get ⟨i, hi⟩) = net (slugs.get ⟨i, hi⟩) →
      (run_all net' fs slugs).1[i]? = (run_all net fs slugs).1[i]?) := by
  refine ⟨?_, fun hnd => ?_, fun hnd i hi hagree => ?_⟩
  · induction slugs generalizing fs with
    | nil => rfl
    | cons s rest ih => simpa [run_all] using ih (download_plugin net fs s).fs
  · exact run_all_outcomes net fs slugs fs hnd (fun _ _ => rfl)
  · rw [run_all_outcomes net fs slugs fs hnd (fun _ _ => rfl),
      run_all_outcomes net' fs slugs fs hnd (fun _ _ => rfl)]
    have hfun := download_plugin_net_congr net net' fs (slugs.get ⟨i, hi⟩) hagree
    rw [List.getElem?_map, List.getElem?_map, List.getElem?_eq_getElem hi]
    exact congrArg (fun r => some r.outcome) hfun

/-- Witness for C7: two distinct slugs, the first failing with HTTP 500,
the second succeeding — one outcome each. -/
theorem run_all_one_outcome_per_slug_witness :
    (["a", "b"] : List String).Nodup ∧
    (run_all
      (fun s => if s = "a" then .response 500 ⟨[], none⟩ else .response 200 ⟨[3], none⟩)
      [] ["a", "b"]).1 = [.FailedHTTP 500, .Succeeded] := by
  refine ⟨by decide, ?_⟩
  have h := (run_all_one_outcome_per_slug
    (fun s => if s = "a" then .response 500 ⟨[], none⟩ else .response 200 ⟨[3], none⟩)
    (fun s => if s = "a" then .response 500 ⟨[], none⟩ else .response 200 ⟨[3], none⟩)
    [] ["a", "b"]).2.1 (by decide)
  rw [h]
  decide
